import Mathlib

/-!
# Verification of the streaming agent-orchestration core

Shallow embedding of the response-streaming orchestrators
(`CodeChangesChatAgent.run`, `DebuggingChatAgent.run`), the transcript
stream extractor (`DebugRAGAgent.run`), and the classifier input window
(`_classify_query`) of the conversational code-assistant backend.

External collaborators (history store, LLM chains, prompt service, the
knowledge-graph lookup tools, and the pure citation formatter
`AgentsService.format_citations`) are modelled as oracle inputs: the LLM
stream contents, the tool-agent runner's outcome and the formatter are
parameters of the embedded run functions.  The observable behaviour of a
run is its trace of events: buffered history writes
(`add_message_chunk`), yields to the caller, and buffer flushes
(`flush_message_buffer`).
-/

/- ## Character-level string helpers

The Python code uses `in` (substring test), `str.endswith` and slicing
`line[:-6]`; these are modelled directly on the character lists backing
`String`, keeping every definition kernel-evaluable. -/

/-- Boolean prefix test on character lists. -/
def chPre : List Char → List Char → Bool
  | [], _ => true
  | _ :: _, [] => false
  | a :: as, b :: bs => a == b && chPre as bs

/-- Boolean substring test on character lists (`pat` occurs in the list). -/
def chHas (pat : List Char) : List Char → Bool
  | [] => pat.isEmpty
  | a :: rest => chPre pat (a :: rest) || chHas pat rest

/-- Python `pat in s` (substring containment). -/
def containsStr (s pat : String) : Bool := chHas pat.data s.data

/-- Python `s.endswith(post)`. -/
def endsWithStr (s post : String) : Bool := chPre post.data.reverse s.data.reverse

/-- Python `s[:-n]` for `n ≤ len(s)`: drop the last `n` characters. -/
def dropRightStr (s : String) (n : Nat) : String :=
  String.mk (s.data.take (s.data.length - n))

/- ## Transcript stream extractor (`DebugRAGAgent.run`, lines 195-207)

```python
final_answer_streaming = False
async with aiofiles.open(read_fd, mode="r") as read_file:
    async for line in read_file:
        if not line:
            break
        if final_answer_streaming:
            if line.endswith("\x1b[00m\n"):
                yield line[:-6]
            else:
                yield line
        if "## Final Answer:" in line:
            final_answer_streaming = True
```

Lines arrive from line-oriented iteration over a pipe, so each line
carries its trailing newline (the code's own `endswith("\x1b[00m\n")`
check relies on this). -/

/-- The literal final-answer marker searched for in each transcript line. -/
def finalAnswerMarker : String := "## Final Answer:"

/-- The terminal color-reset sequence (with the line's newline): 6 characters. -/
def colorResetSeq : String := "\x1b[00m\n"

/-- One pass of the transcript streaming loop, carrying the
`final_answer_streaming` flag.  The emit decision uses the flag value from
before the current line's marker check, exactly as in the source. -/
def streamLoop : Bool → List String → List String
  | _, [] => []
  | streaming, line :: rest =>
    if line = "" then []
    else
      (if streaming then
        (if endsWithStr line colorResetSeq then [dropRightStr line 6] else [line])
       else []) ++
      streamLoop (streaming || containsStr line finalAnswerMarker) rest

/-- The fragments emitted by `DebugRAGAgent.run` for a finite transcript. -/
def debugRagStreamOutput (lines : List String) : List String :=
  streamLoop false lines

/- ## Claims C3 and C7 -/

/-- C3 (counterexample): on the transcript lines
`["thinking...", "## Final Answer: ", "Hello", "World\x1b[00m"]` — which
arrive from the pipe newline-terminated — the extractor does NOT emit
exactly `["Hello", "World"]`: the non-escape line keeps its trailing
newline, so the first fragment is `"Hello\n"`. -/
theorem extractor_example_cex :
    debugRagStreamOutput
      ["thinking...\n", "## Final Answer: \n", "Hello\n", "World\x1b[00m\n"]
      ≠ ["Hello", "World"] := by decide

/-- C3 (amended): on the newline-terminated transcript lines
`["thinking...\n", "## Final Answer: \n", "Hello\n", "World\x1b[00m\n"]`
the extractor emits exactly `["Hello\n", "World"]`: the marker line is
consumed without being emitted, the trailing color-reset sequence together
with that line's newline is stripped only on the line carrying it, and
every other emitted line retains its trailing newline. -/
theorem extractor_example_output :
    debugRagStreamOutput
      ["thinking...\n", "## Final Answer: \n", "Hello\n", "World\x1b[00m\n"]
      = ["Hello\n", "World"] := by decide

/-- If no line of the transcript contains the marker, the
`final_answer_streaming` flag never flips, so no line is ever emitted. -/
theorem streamLoop_no_marker (ls : List String)
    (h : ∀ l ∈ ls, containsStr l finalAnswerMarker = false) :
    streamLoop false ls = [] := by
  induction ls with
  | nil => rfl
  | cons a rest ih =>
    have ha := h a (List.mem_cons_self a rest)
    by_cases h0 : a = ""
    · simp [streamLoop, h0]
    · simp only [streamLoop, h0, if_false, Bool.false_eq_true, ha, Bool.or_self,
        List.nil_append]
      exact ih (fun l hl => h l (List.mem_cons_of_mem a hl))

/-- C7: for every transcript line sequence in which no line contains the
literal marker `"## Final Answer:"`, the extractor emits no fragment at
all, however many lines the source produces; no fragment is ever emitted
before a marker line has been seen. -/
theorem extractor_silent_without_marker (lines : List String)
    (h : ∀ l ∈ lines, containsStr l finalAnswerMarker = false) :
    debugRagStreamOutput lines = [] :=
  streamLoop_no_marker lines h

/-- C7 (witness): a concrete marker-free transcript produces no fragments. -/
theorem extractor_silent_without_marker_witness :
    debugRagStreamOutput ["thinking hard\n", "tool call output\n", "done\n"] = [] :=
  extractor_silent_without_marker
    ["thinking hard\n", "tool call output\n", "done\n"] (by decide)

/- ## Data model of the orchestrators

`ClassificationResult` is the binary routing decision; the tool-agent
runner results mirror the crew kickoff results used by the two
orchestrators (`blast_radius_result` with a `.pydantic`/`.raw` pair,
`rag_result` with a structured `RAGResponse`). -/

/-- Routing decision returned by `_classify_query`. -/
inductive ClassificationResult where
  | AGENT_REQUIRED
  | NO_AGENT
deriving DecidableEq, Repr

/-- Structured node answer (`NodeResponse` pydantic model in
`debug_rag_agent.py`). -/
structure NodeResponse where
  node_name : String
  docstring : String
  code : String
deriving DecidableEq, Repr

/-- Structured RAG result (`RAGResponse` pydantic model): citations plus a
list of node answers. -/
structure RAGResponse where
  citations : List String
  response : List NodeResponse
deriving DecidableEq, Repr

/-- Crew result of `kickoff_debug_rag_agent` as consumed by
`DebuggingChatAgent.run`: optional structured parse and the raw text. -/
structure RAGResult where
  pydantic : Option RAGResponse
  raw : String
deriving DecidableEq, Repr

/-- Structured blast-radius result as consumed by
`CodeChangesChatAgent.run` (`blast_radius_result.pydantic.citations` /
`.response`); the response is rendered into an f-string, modelled as text. -/
structure BlastRadiusPydantic where
  citations : List String
  response : String
deriving DecidableEq, Repr

/-- Crew result of `kickoff_blast_radius_agent`: optional structured parse
and the raw text. -/
structure BlastRadiusResult where
  pydantic : Option BlastRadiusPydantic
  raw : String
deriving DecidableEq, Repr

/-- Outcome of awaiting a tool-agent runner: a value, or an exception with
its text. -/
inductive RunnerOutcome (α : Type) where
  | ok (val : α)
  | raised (msg : String)
deriving DecidableEq, Repr

/-- The value placed in the `"message"` field of a chunk (and passed as
`content` to `add_message_chunk`): a plain string on the streaming paths,
or the list of node dicts (`[node.model_dump() for node in response]`) on
the debugging agent branch. -/
inductive MsgPayload where
  | str (s : String)
  | nodes (ns : List NodeResponse)
deriving DecidableEq, Repr

/-- One item yielded to the caller: either the dict passed to
`json.dumps` (`{"citations": ..., "message": ...}`), or a bare string
(the `f"An error occurred: {e}"` error path). -/
inductive StreamItem where
  | chunkItem (citations : List String) (message : MsgPayload)
  | rawItem (text : String)
deriving DecidableEq, Repr

/-- Observable effect of one step of a run: a buffered history write, a
yield to the caller, or a buffer flush. -/
inductive Event where
  | add_message_chunk (content : MsgPayload) (citations : Option (List String))
  | yieldItem (item : StreamItem)
  | flush_message_buffer
deriving DecidableEq, Repr

/-- The error-chunk text prefixed to the exception message by both
orchestrators' `except` handlers. -/
def errorIndicator : String := "An error occurred: "

/-- Trace of the shared token-streaming loop
(`async for chunk in self.chain.astream(inputs)`): for each chunk content
`c`, one buffered `add_message_chunk` (with `addCits` as its `citations`
keyword) followed by one yield of `{"citations": yieldCits, "message": c}`. -/
def streamEvents (addCits : Option (List String)) (yieldCits : List String) :
    List String → List Event
  | [] => []
  | c :: rest =>
      Event.add_message_chunk (MsgPayload.str c) addCits ::
      Event.yieldItem (StreamItem.chunkItem yieldCits (MsgPayload.str c)) ::
      streamEvents addCits yieldCits rest

/-- End of the streaming loop: if the chain raised after the emitted
chunks, control transfers to the `except` handler which yields the bare
error string; otherwise `flush_message_buffer` runs. -/
def streamTail (streamRaise : Option String) : List Event :=
  match streamRaise with
  | some e => [Event.yieldItem (StreamItem.rawItem (errorIndicator ++ e))]
  | none => [Event.flush_message_buffer]

/-- Oracle inputs of one `CodeChangesChatAgent.run` request: the
classifier's decision, the awaited `kickoff_blast_radius_agent` outcome,
the contents emitted by `chain.astream` before it finished or raised, and
whether it raised afterwards. -/
structure CodeChangesInputs where
  classification : ClassificationResult
  blast_radius_result : RunnerOutcome BlastRadiusResult
  streamChunks : List String
  streamRaise : Option String
deriving DecidableEq, Repr

/-- Oracle inputs of one `DebuggingChatAgent.run` request. -/
structure DebuggingInputs where
  classification : ClassificationResult
  rag_result : RunnerOutcome RAGResult
  streamChunks : List String
  streamRaise : Option String
deriving DecidableEq, Repr

/-- Event trace of `CodeChangesChatAgent.run` (lines 109-193).  `fmt` is
the pure citation formatter `AgentsService.format_citations` (defined
outside the embedded sources), kept abstract.  On AGENT_REQUIRED the
blast-radius runner is awaited: a raise is caught by the outer handler,
which yields the single bare error string; on success its citations are
taken from the structured parse (or `[]`).  Both branches then run
`citations = format_citations(citations)` and the shared streaming loop,
whose per-chunk `citations` arguments depend on the classification. -/
def codeChangesRun (fmt : List String → List String) (inp : CodeChangesInputs) :
    List Event :=
  match inp.classification with
  | ClassificationResult.AGENT_REQUIRED =>
    match inp.blast_radius_result with
    | RunnerOutcome.raised e =>
        [Event.yieldItem (StreamItem.rawItem (errorIndicator ++ e))]
    | RunnerOutcome.ok br =>
        let citations :=
          match br.pydantic with
          | some p => p.citations
          | none => []
        let fcit := fmt citations
        streamEvents (some fcit) fcit inp.streamChunks ++ streamTail inp.streamRaise
  | ClassificationResult.NO_AGENT =>
      let _fcit := fmt []
      streamEvents none [] inp.streamChunks ++ streamTail inp.streamRaise

/-- Event trace of `DebuggingChatAgent.run` (lines 102-228).  On
AGENT_REQUIRED the rag runner is awaited (a raise reaches the outer
handler, which yields the single bare error string); on success the
result payload and citations come from the structured parse (node dicts
and `pydantic.citations`) or from the raw text with `[]`; one buffered
write, one flush and one consolidated yield follow, and the streaming
block is skipped.  Otherwise `format_citations([])` is computed and the
streaming loop runs with those citations on every write and yield. -/
def debuggingRun (fmt : List String → List String) (inp : DebuggingInputs) :
    List Event :=
  match inp.classification with
  | ClassificationResult.AGENT_REQUIRED =>
    match inp.rag_result with
    | RunnerOutcome.raised e =>
        [Event.yieldItem (StreamItem.rawItem (errorIndicator ++ e))]
    | RunnerOutcome.ok rr =>
        let payload :=
          match rr.pydantic with
          | some p => MsgPayload.nodes p.response
          | none => MsgPayload.str rr.raw
        let citations :=
          match rr.pydantic with
          | some p => p.citations
          | none => []
        [Event.add_message_chunk payload (some citations),
         Event.flush_message_buffer,
         Event.yieldItem (StreamItem.chunkItem citations payload)]
  | ClassificationResult.NO_AGENT =>
      let fcit := fmt []
      streamEvents (some fcit) fcit inp.streamChunks ++ streamTail inp.streamRaise

/- ## Trace observers -/

/-- Items yielded to the caller, in order. -/
def yieldItemsOf : List Event → List StreamItem
  | [] => []
  | Event.yieldItem i :: r => i :: yieldItemsOf r
  | _ :: r => yieldItemsOf r

/-- The `(citations, message)` pairs of the yielded chunk objects, in
order (bare error strings are not chunk objects). -/
def chunkItemsOf : List Event → List (List String × MsgPayload)
  | [] => []
  | Event.yieldItem (StreamItem.chunkItem cs m) :: r => (cs, m) :: chunkItemsOf r
  | _ :: r => chunkItemsOf r

/-- The `content` arguments passed to `add_message_chunk`, in call order. -/
def addContentsOf : List Event → List MsgPayload
  | [] => []
  | Event.add_message_chunk m _ :: r => m :: addContentsOf r
  | _ :: r => addContentsOf r

/-- The `citations` keyword arguments passed to `add_message_chunk`, in
call order. -/
def addCitationsOf : List Event → List (Option (List String))
  | [] => []
  | Event.add_message_chunk _ cs :: r => cs :: addCitationsOf r
  | _ :: r => addCitationsOf r

/-- Number of `flush_message_buffer` calls in a trace. -/
def flushCountOf : List Event → Nat
  | [] => 0
  | Event.flush_message_buffer :: r => flushCountOf r + 1
  | _ :: r => flushCountOf r

/-- Credit-counting check that every yielded chunk object is preceded by
an unconsumed earlier buffered write: each `add_message_chunk` deposits a
credit, each chunk yield must consume one. -/
def creditOk : Nat → List Event → Bool
  | _, [] => true
  | n, Event.add_message_chunk _ _ :: r => creditOk (n + 1) r
  | n, Event.yieldItem (StreamItem.chunkItem _ _) :: r =>
      decide (0 < n) && creditOk (n - 1) r
  | n, _ :: r => creditOk n r

/-- A trace in which no chunk is ever yielded without a corresponding
prior buffered history write. -/
def writesPrecedeYields (t : List Event) : Bool := creditOk 0 t

/- ## Trace lemmas for the shared streaming loop -/

/-- Chunk objects yielded by the streaming loop: one per chain content,
each carrying `yieldCits`. -/
theorem chunkItemsOf_streamEvents (ac : Option (List String)) (yc : List String)
    (cs : List String) (tail : List Event) :
    chunkItemsOf (streamEvents ac yc cs ++ tail) =
      cs.map (fun c => (yc, MsgPayload.str c)) ++ chunkItemsOf tail := by
  induction cs with
  | nil => simp [streamEvents]
  | cons c rest ih => simp [streamEvents, chunkItemsOf, ih]

/-- The stream tail yields no chunk object. -/
theorem chunkItemsOf_streamTail (sr : Option String) :
    chunkItemsOf (streamTail sr) = [] := by
  cases sr <;> simp [streamTail, chunkItemsOf]

/-- Buffered write contents of the streaming loop: exactly the chain
contents, in order. -/
theorem addContentsOf_streamEvents (ac : Option (List String)) (yc : List String)
    (cs : List String) (tail : List Event) :
    addContentsOf (streamEvents ac yc cs ++ tail) =
      cs.map MsgPayload.str ++ addContentsOf tail := by
  induction cs with
  | nil => simp [streamEvents]
  | cons c rest ih => simp [streamEvents, addContentsOf, ih]

/-- The stream tail performs no buffered write. -/
theorem addContentsOf_streamTail (sr : Option String) :
    addContentsOf (streamTail sr) = [] := by
  cases sr <;> simp [streamTail, addContentsOf]

/-- Buffered write citation arguments of the streaming loop: `addCits` on
every write. -/
theorem addCitationsOf_streamEvents (ac : Option (List String)) (yc : List String)
    (cs : List String) (tail : List Event) :
    addCitationsOf (streamEvents ac yc cs ++ tail) =
      cs.map (fun _ => ac) ++ addCitationsOf tail := by
  induction cs with
  | nil => simp [streamEvents]
  | cons c rest ih => simp [streamEvents, addCitationsOf, ih]

/-- The stream tail passes no citation argument. -/
theorem addCitationsOf_streamTail (sr : Option String) :
    addCitationsOf (streamTail sr) = [] := by
  cases sr <;> simp [streamTail, addCitationsOf]

/-- Items yielded by the streaming loop. -/
theorem yieldItemsOf_streamEvents (ac : Option (List String)) (yc : List String)
    (cs : List String) (tail : List Event) :
    yieldItemsOf (streamEvents ac yc cs ++ tail) =
      cs.map (fun c => StreamItem.chunkItem yc (MsgPayload.str c)) ++
        yieldItemsOf tail := by
  induction cs with
  | nil => simp [streamEvents]
  | cons c rest ih => simp [streamEvents, yieldItemsOf, ih]

/-- The streaming loop credits every yield with the write just before it. -/
theorem creditOk_streamEvents (ac : Option (List String)) (yc : List String)
    (cs : List String) (tail : List Event) :
    ∀ n : Nat, creditOk n tail = true →
      creditOk n (streamEvents ac yc cs ++ tail) = true := by
  induction cs with
  | nil => intro n h; simpa using h
  | cons c rest ih =>
    intro n h
    simpa [streamEvents, creditOk] using ih n h

/-- Both possible stream tails pass the credit check with any balance. -/
theorem creditOk_streamTail (n : Nat) (sr : Option String) :
    creditOk n (streamTail sr) = true := by
  cases sr <;> simp [streamTail, creditOk]

/- ## Claim C1 -/

/-- C1 (counterexample): in `CodeChangesChatAgent.run`, an
AGENT_REQUIRED request whose runner produced structured output does not
yield one consolidated chunk — the direct chain is streamed, so a
two-chunk chain yields two chunks. -/
theorem codeChanges_agent_multi_chunk_cex :
    (yieldItemsOf (codeChangesRun (fun l => l)
      { classification := ClassificationResult.AGENT_REQUIRED,
        blast_radius_result := RunnerOutcome.ok
          { pydantic := some { citations := ["file1"], response := "resp" },
            raw := "" },
        streamChunks := ["part one ", "part two"],
        streamRaise := none })).length ≠ 1 := by decide

/-- C1 (amended): in `DebuggingChatAgent.run`, whenever the classifier
returns AGENT_REQUIRED and the rag runner returns structured output, the
run yields exactly one chunk in total, and that chunk's citations field
equals the runner's structured citations.  (`CodeChangesChatAgent.run`
instead folds the runner result into the direct chain and streams one
chunk per chain token-chunk.) -/
theorem debugging_agent_branch_single_chunk (fmt : List String → List String)
    (inp : DebuggingInputs) (rr : RAGResult) (p : RAGResponse)
    (hc : inp.classification = ClassificationResult.AGENT_REQUIRED)
    (hr : inp.rag_result = RunnerOutcome.ok rr)
    (hp : rr.pydantic = some p) :
    yieldItemsOf (debuggingRun fmt inp) =
      [StreamItem.chunkItem p.citations (MsgPayload.nodes p.response)] := by
  simp [debuggingRun, hc, hr, hp, yieldItemsOf]

/-- C1 (witness): a concrete AGENT_REQUIRED debugging request with a
structured runner result yields exactly its one consolidated chunk. -/
theorem debugging_agent_branch_single_chunk_witness :
    yieldItemsOf (debuggingRun (fun l => l)
      { classification := ClassificationResult.AGENT_REQUIRED,
        rag_result := RunnerOutcome.ok
          { pydantic := some { citations := ["f.py"], response := [] }, raw := "" },
        streamChunks := [], streamRaise := none }) =
      [StreamItem.chunkItem ["f.py"] (MsgPayload.nodes [])] :=
  debugging_agent_branch_single_chunk (fun l => l) _ _ _ rfl rfl rfl

/- ## Claim C2 -/

/-- C2: for every NO_AGENT request, in both orchestrators, the yielded
chunk objects are exactly one per chain content in order — so the
concatenated message fields equal the chain's concatenated output — and
every yielded chunk carries `[]` citations.  For the debugging
orchestrator this uses the (spec-modelled) fact that the pure formatter
maps the empty citation list to itself. -/
theorem no_agent_stream_chunk_shape (fmt : List String → List String)
    (ci : CodeChangesInputs) (di : DebuggingInputs)
    (hc : ci.classification = ClassificationResult.NO_AGENT)
    (hd : di.classification = ClassificationResult.NO_AGENT)
    (hfmt : fmt [] = []) :
    (chunkItemsOf (codeChangesRun fmt ci) =
        ci.streamChunks.map (fun c => (([] : List String), MsgPayload.str c)) ∧
      ∀ x ∈ chunkItemsOf (codeChangesRun fmt ci), x.1 = []) ∧
    (chunkItemsOf (debuggingRun fmt di) =
        di.streamChunks.map (fun c => (([] : List String), MsgPayload.str c)) ∧
      ∀ x ∈ chunkItemsOf (debuggingRun fmt di), x.1 = []) := by
  have h1 : chunkItemsOf (codeChangesRun fmt ci) =
      ci.streamChunks.map (fun c => (([] : List String), MsgPayload.str c)) := by
    simp [codeChangesRun, hc, chunkItemsOf_streamEvents, chunkItemsOf_streamTail]
  have h2 : chunkItemsOf (debuggingRun fmt di) =
      di.streamChunks.map (fun c => (([] : List String), MsgPayload.str c)) := by
    simp [debuggingRun, hd, hfmt, chunkItemsOf_streamEvents, chunkItemsOf_streamTail]
  refine ⟨⟨h1, ?_⟩, ⟨h2, ?_⟩⟩
  · intro x hx
    rw [h1] at hx
    rcases List.mem_map.mp hx with ⟨c, _, rfl⟩
    rfl
  · intro x hx
    rw [h2] at hx
    rcases List.mem_map.mp hx with ⟨c, _, rfl⟩
    rfl

/-- C2 (witness): concrete NO_AGENT requests in both orchestrators, with
the identity formatter, yield citation-free chunks matching the chain
output. -/
theorem no_agent_stream_chunk_shape_witness :
    chunkItemsOf (codeChangesRun (fun l => l)
      { classification := ClassificationResult.NO_AGENT,
        blast_radius_result := RunnerOutcome.ok { pydantic := none, raw := "" },
        streamChunks := ["Hi ", "there"], streamRaise := none }) =
      [(([] : List String), MsgPayload.str "Hi "),
       (([] : List String), MsgPayload.str "there")] :=
  (no_agent_stream_chunk_shape (fun l => l)
    { classification := ClassificationResult.NO_AGENT,
      blast_radius_result := RunnerOutcome.ok { pydantic := none, raw := "" },
      streamChunks := ["Hi ", "there"], streamRaise := none }
    { classification := ClassificationResult.NO_AGENT,
      rag_result := RunnerOutcome.ok { pydantic := none, raw := "" },
      streamChunks := [], streamRaise := none }
    rfl rfl rfl).1.1

/- ## Claim C4 -/

/-- C4: for every successful streaming request (runner did not raise,
chain did not raise) in either orchestrator, the sequence of `content`
arguments passed to `add_message_chunk` equals the sequence of message
fields of the yielded chunks, in the same order (so their concatenations
are equal), and every chunk's buffered write happens before that chunk is
yielded — no chunk is ever yielded without a prior buffered write. -/
theorem history_buffer_write_before_yield (fmt : List String → List String)
    (ci : CodeChangesInputs) (di : DebuggingInputs)
    (hc1 : ci.streamRaise = none)
    (hc2 : ∀ e, ci.blast_radius_result ≠ RunnerOutcome.raised e)
    (hd1 : di.streamRaise = none)
    (hd2 : ∀ e, di.rag_result ≠ RunnerOutcome.raised e) :
    (addContentsOf (codeChangesRun fmt ci) =
        (chunkItemsOf (codeChangesRun fmt ci)).map Prod.snd ∧
      writesPrecedeYields (codeChangesRun fmt ci) = true) ∧
    (addContentsOf (debuggingRun fmt di) =
        (chunkItemsOf (debuggingRun fmt di)).map Prod.snd ∧
      writesPrecedeYields (debuggingRun fmt di) = true) := by
  constructor
  · cases hcc : ci.classification with
    | AGENT_REQUIRED =>
      cases hbr : ci.blast_radius_result with
      | raised e => exact absurd hbr (hc2 e)
      | ok br =>
        constructor
        · simp [codeChangesRun, hcc, hbr, hc1, addContentsOf_streamEvents,
            chunkItemsOf_streamEvents, addContentsOf_streamTail,
            chunkItemsOf_streamTail, List.map_map, Function.comp]
        · simp only [writesPrecedeYields, codeChangesRun, hcc, hbr]
          exact creditOk_streamEvents _ _ _ _ 0 (creditOk_streamTail 0 _)
    | NO_AGENT =>
      constructor
      · simp [codeChangesRun, hcc, hc1, addContentsOf_streamEvents,
          chunkItemsOf_streamEvents, addContentsOf_streamTail,
          chunkItemsOf_streamTail, List.map_map, Function.comp]
      · simp only [writesPrecedeYields, codeChangesRun, hcc]
        exact creditOk_streamEvents _ _ _ _ 0 (creditOk_streamTail 0 _)
  · cases hdc : di.classification with
    | AGENT_REQUIRED =>
      cases hdr : di.rag_result with
      | raised e => exact absurd hdr (hd2 e)
      | ok rr =>
        constructor
        · simp [debuggingRun, hdc, hdr, addContentsOf, chunkItemsOf]
        · simp [writesPrecedeYields, debuggingRun, hdc, hdr, creditOk]
    | NO_AGENT =>
      constructor
      · simp [debuggingRun, hdc, hd1, addContentsOf_streamEvents,
          chunkItemsOf_streamEvents, addContentsOf_streamTail,
          chunkItemsOf_streamTail, List.map_map, Function.comp]
      · simp only [writesPrecedeYields, debuggingRun, hdc]
        exact creditOk_streamEvents _ _ _ _ 0 (creditOk_streamTail 0 _)

/-- C4 (witness): concrete successful requests — a NO_AGENT code-changes
stream and an AGENT_REQUIRED debugging run — satisfy both the write/yield
sequence equality and the write-before-yield check. -/
theorem history_buffer_write_before_yield_witness :
    (addContentsOf (codeChangesRun (fun l => l)
        { classification := ClassificationResult.NO_AGENT,
          blast_radius_result := RunnerOutcome.ok { pydantic := none, raw := "" },
          streamChunks := ["tok1", "tok2"], streamRaise := none }) =
      (chunkItemsOf (codeChangesRun (fun l => l)
        { classification := ClassificationResult.NO_AGENT,
          blast_radius_result := RunnerOutcome.ok { pydantic := none, raw := "" },
          streamChunks := ["tok1", "tok2"], streamRaise := none })).map Prod.snd ∧
      writesPrecedeYields (codeChangesRun (fun l => l)
        { classification := ClassificationResult.NO_AGENT,
          blast_radius_result := RunnerOutcome.ok { pydantic := none, raw := "" },
          streamChunks := ["tok1", "tok2"], streamRaise := none }) = true) ∧
    (addContentsOf (debuggingRun (fun l => l)
        { classification := ClassificationResult.AGENT_REQUIRED,
          rag_result := RunnerOutcome.ok { pydantic := some { citations := ["f.py"], response := [⟨"n", "d", "c"⟩] }, raw := "" },
          streamChunks := [], streamRaise := none }) =
      (chunkItemsOf (debuggingRun (fun l => l)
        { classification := ClassificationResult.AGENT_REQUIRED,
          rag_result := RunnerOutcome.ok { pydantic := some { citations := ["f.py"], response := [⟨"n", "d", "c"⟩] }, raw := "" },
          streamChunks := [], streamRaise := none })).map Prod.snd ∧
      writesPrecedeYields (debuggingRun (fun l => l)
        { classification := ClassificationResult.AGENT_REQUIRED,
          rag_result := RunnerOutcome.ok { pydantic := some { citations := ["f.py"], response := [⟨"n", "d", "c"⟩] }, raw := "" },
          streamChunks := [], streamRaise := none }) = true) :=
  history_buffer_write_before_yield (fun l => l) _ _
    rfl (fun _e h => RunnerOutcome.noConfusion h) rfl
    (fun _e h => RunnerOutcome.noConfusion h)

/- ## Claim C5 -/

/-- C5: in either orchestrator, if the tool-agent runner raises on the
AGENT_REQUIRED branch, the `except` handler yields exactly one item — the
error-indicator string carrying the exception text — and the generator
ends without calling `flush_message_buffer`; the run function is total,
so no exception propagates to the caller. -/
theorem runner_failure_contained (fmt : List String → List String)
    (ci : CodeChangesInputs) (di : DebuggingInputs) (e e' : String)
    (hc : ci.classification = ClassificationResult.AGENT_REQUIRED)
    (he : ci.blast_radius_result = RunnerOutcome.raised e)
    (hd : di.classification = ClassificationResult.AGENT_REQUIRED)
    (he' : di.rag_result = RunnerOutcome.raised e') :
    (yieldItemsOf (codeChangesRun fmt ci) =
        [StreamItem.rawItem (errorIndicator ++ e)] ∧
      flushCountOf (codeChangesRun fmt ci) = 0) ∧
    (yieldItemsOf (debuggingRun fmt di) =
        [StreamItem.rawItem (errorIndicator ++ e')] ∧
      flushCountOf (debuggingRun fmt di) = 0) := by
  refine ⟨⟨?_, ?_⟩, ⟨?_, ?_⟩⟩ <;>
    simp [codeChangesRun, debuggingRun, hc, he, hd, he', yieldItemsOf, flushCountOf]

/-- C5 (witness): concrete runner failures in both orchestrators yield the
single error chunk and never flush. -/
theorem runner_failure_contained_witness :
    (yieldItemsOf (codeChangesRun (fun l => l)
        { classification := ClassificationResult.AGENT_REQUIRED,
          blast_radius_result := RunnerOutcome.raised "boom",
          streamChunks := [], streamRaise := none }) =
       [StreamItem.rawItem (errorIndicator ++ "boom")] ∧
     flushCountOf (codeChangesRun (fun l => l)
        { classification := ClassificationResult.AGENT_REQUIRED,
          blast_radius_result := RunnerOutcome.raised "boom",
          streamChunks := [], streamRaise := none }) = 0) ∧
    (yieldItemsOf (debuggingRun (fun l => l)
        { classification := ClassificationResult.AGENT_REQUIRED,
          rag_result := RunnerOutcome.raised "crash",
          streamChunks := [], streamRaise := none }) =
       [StreamItem.rawItem (errorIndicator ++ "crash")] ∧
     flushCountOf (debuggingRun (fun l => l)
        { classification := ClassificationResult.AGENT_REQUIRED,
          rag_result := RunnerOutcome.raised "crash",
          streamChunks := [], streamRaise := none }) = 0) :=
  runner_failure_contained (fun l => l) _ _ "boom" "crash" rfl rfl rfl rfl

/- ## Claim C6 -/

/-- C6 (counterexample): in `DebuggingChatAgent.run` — the only
orchestrator that yields a single consolidated chunk — the chunk's
citations are NOT the formatted citations: with a formatter that maps
every list to `["FORMATTED"]`, the consolidated chunk still carries the
runner's raw `["raw.py"]`. -/
theorem consolidated_chunk_unformatted_cex :
    (chunkItemsOf (debuggingRun (fun _ => ["FORMATTED"])
      { classification := ClassificationResult.AGENT_REQUIRED,
        rag_result := RunnerOutcome.ok
          { pydantic := some { citations := ["raw.py"], response := [] },
            raw := "" },
        streamChunks := [], streamRaise := none })).map Prod.fst ≠
      [(fun (_ : List String) => ["FORMATTED"]) ["raw.py"]] := by decide

/-- C6 (amended): on the AGENT_REQUIRED branch with structured runner
output, `DebuggingChatAgent.run` persists and yields its single
consolidated chunk with the runner's citations as-is — `format_citations`
is not applied on that path — while `CodeChangesChatAgent.run` applies
`format_citations` to the runner's citations before its streaming loop
and attaches the formatted citations to every streamed write and yield
(it has no single consolidated chunk). -/
theorem citation_formatting_paths (fmt : List String → List String)
    (ci : CodeChangesInputs) (di : DebuggingInputs)
    (br : BlastRadiusResult) (bp : BlastRadiusPydantic)
    (rr : RAGResult) (p : RAGResponse)
    (hdc : di.classification = ClassificationResult.AGENT_REQUIRED)
    (hdr : di.rag_result = RunnerOutcome.ok rr)
    (hdp : rr.pydantic = some p)
    (hcc : ci.classification = ClassificationResult.AGENT_REQUIRED)
    (hcb : ci.blast_radius_result = RunnerOutcome.ok br)
    (hcp : br.pydantic = some bp) :
    debuggingRun fmt di =
      [Event.add_message_chunk (MsgPayload.nodes p.response) (some p.citations),
       Event.flush_message_buffer,
       Event.yieldItem (StreamItem.chunkItem p.citations (MsgPayload.nodes p.response))] ∧
    (chunkItemsOf (codeChangesRun fmt ci)).map Prod.fst =
      ci.streamChunks.map (fun _ => fmt bp.citations) ∧
    addCitationsOf (codeChangesRun fmt ci) =
      ci.streamChunks.map (fun _ => some (fmt bp.citations)) := by
  refine ⟨?_, ?_, ?_⟩
  · simp [debuggingRun, hdc, hdr, hdp]
  · simp [codeChangesRun, hcc, hcb, hcp, chunkItemsOf_streamEvents,
      chunkItemsOf_streamTail, List.map_map, Function.comp_def]
  · simp [codeChangesRun, hcc, hcb, hcp, addCitationsOf_streamEvents,
      addCitationsOf_streamTail]

/-- C6 (witness): with a concrete non-identity formatter, the debugging
consolidated chunk carries raw citations while every code-changes
streamed chunk carries the formatted ones. -/
theorem citation_formatting_paths_witness :
    debuggingRun (fun _ => ["FMT"])
      { classification := ClassificationResult.AGENT_REQUIRED,
        rag_result := RunnerOutcome.ok
          { pydantic := some { citations := ["r.py"], response := [] }, raw := "" },
        streamChunks := [], streamRaise := none } =
      [Event.add_message_chunk (MsgPayload.nodes []) (some ["r.py"]),
       Event.flush_message_buffer,
       Event.yieldItem (StreamItem.chunkItem ["r.py"] (MsgPayload.nodes []))] ∧
    (chunkItemsOf (codeChangesRun (fun _ => ["FMT"])
      { classification := ClassificationResult.AGENT_REQUIRED,
        blast_radius_result := RunnerOutcome.ok
          { pydantic := some { citations := ["r.py"], response := "resp" },
            raw := "" },
        streamChunks := ["a", "b"], streamRaise := none })).map Prod.fst =
      ["a", "b"].map (fun _ => ["FMT"]) ∧
    addCitationsOf (codeChangesRun (fun _ => ["FMT"])
      { classification := ClassificationResult.AGENT_REQUIRED,
        blast_radius_result := RunnerOutcome.ok
          { pydantic := some { citations := ["r.py"], response := "resp" },
            raw := "" },
        streamChunks := ["a", "b"], streamRaise := none }) =
      ["a", "b"].map (fun _ => some ["FMT"]) :=
  citation_formatting_paths (fun _ => ["FMT"])
    { classification := ClassificationResult.AGENT_REQUIRED,
      blast_radius_result := RunnerOutcome.ok { pydantic := some { citations := ["r.py"], response := "resp" }, raw := "" },
      streamChunks := ["a", "b"], streamRaise := none }
    { classification := ClassificationResult.AGENT_REQUIRED,
      rag_result := RunnerOutcome.ok { pydantic := some { citations := ["r.py"], response := [] }, raw := "" },
      streamChunks := [], streamRaise := none }
    { pydantic := some { citations := ["r.py"], response := "resp" }, raw := "" }
    { citations := ["r.py"], response := "resp" }
    { pydantic := some { citations := ["r.py"], response := [] }, raw := "" }
    { citations := ["r.py"], response := [] }
    rfl rfl rfl rfl rfl rfl

/- ## Classifier input window (`_classify_query`, both orchestrators)

```python
inputs = {"query": query, "history": [msg.content for msg in history[-5:]]}
```

The `history` argument is the orchestrator's full validated history
(scalars coerced to human turns, existing AI/system messages passed
through unchanged), so the window is over turns of every role. -/

/-- Author role of a validated history turn. -/
inductive Role where
  | human
  | ai
  | system
deriving DecidableEq, Repr

/-- A validated history turn: role plus textual content. -/
structure ChatMsg where
  role : Role
  content : String
deriving DecidableEq, Repr

/-- The `history` list sent to the classification chain:
`[msg.content for msg in history[-5:]]`. -/
def classifyHistoryArg (history : List ChatMsg) : List String :=
  (history.drop (history.length - 5)).map ChatMsg.content

/-- The classification chain inputs
`{"query": query, "history": ...}` built by `_classify_query`. -/
def classifyInputs (query : String) (history : List ChatMsg) :
    String × List String :=
  (query, classifyHistoryArg history)

/-- Modelled from the spec: the routing-prompt history window as §4.1
words it — the textual content of the at most 5 most recent
HUMAN-AUTHORED turns.  Stated from the spec for comparison with
`classifyHistoryArg`. -/
def specHumanHistoryWindow (history : List ChatMsg) : List String :=
  let humans := history.filter (fun m => m.role == Role.human)
  (humans.drop (humans.length - 5)).map ChatMsg.content

/- ## Claim C8 -/

/-- C8 (counterexample): on a history of one human turn followed by five
AI turns, the classifier's history window is the contents of the five AI
turns, not the content of the human-authored turns: the code slices the
full validated history with `[-5:]` and never filters by author. -/
theorem classifier_window_role_cex :
    classifyHistoryArg
      [⟨Role.human, "h1"⟩, ⟨Role.ai, "a1"⟩, ⟨Role.ai, "a2"⟩,
       ⟨Role.ai, "a3"⟩, ⟨Role.ai, "a4"⟩, ⟨Role.ai, "a5"⟩] ≠
      specHumanHistoryWindow
        [⟨Role.human, "h1"⟩, ⟨Role.ai, "a1"⟩, ⟨Role.ai, "a2"⟩,
         ⟨Role.ai, "a3"⟩, ⟨Role.ai, "a4"⟩, ⟨Role.ai, "a5"⟩] := by decide

/-- C8 (amended): the classifier builds its routing inputs from the query
and the textual content of the at most 5 most recent history turns of any
role: the window is a suffix of the full history's contents, all older
turns are dropped, and its size is the fixed constant 5 (or the whole
history when shorter). -/
theorem classifier_window_last_five (query : String) (history : List ChatMsg) :
    (classifyInputs query history).1 = query ∧
    (classifyHistoryArg history).length = min 5 history.length ∧
    ∃ older, history.map ChatMsg.content = older ++ classifyHistoryArg history := by
  refine ⟨rfl, ?_, ?_⟩
  · simp only [classifyHistoryArg, List.length_map, List.length_drop]
    omega
  · refine ⟨(history.map ChatMsg.content).take (history.length - 5), ?_⟩
    rw [classifyHistoryArg, List.map_drop]
    rw [← List.length_map history ChatMsg.content]
    exact (List.take_append_drop _ _).symm

/- ## Seed-context lookup of `DebugRAGAgent.run` (lines 162-166)

```python
code_results = []
if len(node_ids) > 0:
    code_results = await GetCodeFromMultipleNodeIdsTool(
        self.sql_db, self.user_id
    ).run_multiple(project_id, [node.node_id for node in node_ids])
```
-/

/-- Caller-supplied reference to a code-graph node. -/
structure NodeContext where
  node_id : String
deriving DecidableEq, Repr

/-- Seed-context resolution prelude of `DebugRAGAgent.run`: the first
component records every `run_multiple` call made (project id and node-id
list), the second is the resulting `code_results`.  The multi-node lookup
collaborator `run_multiple` is external and kept abstract. -/
def debugRagCodeResults {α : Type} (run_multiple : String → List String → List α)
    (project_id : String) (node_ids : List NodeContext) :
    List (String × List String) × List α :=
  if node_ids.length > 0 then
    ([(project_id, node_ids.map NodeContext.node_id)],
     run_multiple project_id (node_ids.map NodeContext.node_id))
  else ([], [])

/- ## Claim C9 -/

/-- C9: for every non-empty `node_ids` list, the runner performs exactly
one batched multi-node lookup call whose argument is the list of all
`node_id` values in order; for an empty list no lookup call is made and
`code_results` is the empty list. -/
theorem batched_node_lookup {α : Type} (run_multiple : String → List String → List α)
    (project_id : String) (node_ids : List NodeContext) :
    (node_ids ≠ [] →
      (debugRagCodeResults run_multiple project_id node_ids).1 =
        [(project_id, node_ids.map NodeContext.node_id)]) ∧
    (node_ids = [] →
      (debugRagCodeResults run_multiple project_id node_ids).1 = [] ∧
      (debugRagCodeResults run_multiple project_id node_ids).2 = []) := by
  cases node_ids with
  | nil => exact ⟨fun h => absurd rfl h, fun _ => ⟨rfl, rfl⟩⟩
  | cons a rest =>
    refine ⟨fun _ => ?_, fun h => List.noConfusion h⟩
    simp [debugRagCodeResults]

/-- C9 (witness): `[{node_id: "a"}, {node_id: "b"}]` produces exactly one
batched call with `["a", "b"]`, and `[]` produces no call and empty
`code_results`. -/
theorem batched_node_lookup_witness :
    (debugRagCodeResults (fun _ ids => [ids]) "p1" [⟨"a"⟩, ⟨"b"⟩]).1 =
      [("p1", ["a", "b"])] ∧
    (debugRagCodeResults (fun _ ids => [ids]) "p1" ([] : List NodeContext)).1 = [] ∧
    (debugRagCodeResults (fun _ ids => [ids]) "p1" ([] : List NodeContext)).2 = [] := by
  refine ⟨?_, ?_, ?_⟩
  · exact (batched_node_lookup (fun _ ids => [ids]) "p1" [⟨"a"⟩, ⟨"b"⟩]).1 (by decide)
  · exact ((batched_node_lookup (fun _ ids => [ids]) "p1" []).2 rfl).1
  · exact ((batched_node_lookup (fun _ ids => [ids]) "p1" []).2 rfl).2

/- ## Wire encoding of yielded items

Success-path yields go through `json.dumps({"citations": ...,
"message": ...})` (separators `", "` and `": "`, insertion key order);
the error path yields the bare f-string.  `json.dumps` is standard
library code, modelled here for the dict/list/string shapes the
orchestrators produce (the common control-character escapes; non-ASCII
escaping does not affect any claim). -/

/-- Lowercase hex digit for `\u00XX` escapes. -/
def hexDigit (n : Nat) : Char :=
  if n < 10 then Char.ofNat (48 + n) else Char.ofNat (87 + n)

/-- JSON escaping of one character, as `json.dumps` performs it. -/
def escChar (c : Char) : List Char :=
  if c = '"' then ['\\', '"']
  else if c = '\\' then ['\\', '\\']
  else if c = '\n' then ['\\', 'n']
  else if c = '\t' then ['\\', 't']
  else if c = '\r' then ['\\', 'r']
  else if c.toNat = 8 then ['\\', 'b']
  else if c.toNat = 12 then ['\\', 'f']
  else if c.toNat < 32 then
    '\\' :: 'u' :: '0' :: '0' :: [hexDigit (c.toNat / 16), hexDigit (c.toNat % 16)]
  else [c]

/-- JSON string literal: quoted, escaped. -/
def jsonStr (s : String) : String :=
  String.mk ('"' :: (s.data.flatMap escChar ++ ['"']))

/-- Join with a separator (`", "` between JSON array elements). -/
def joinSep (sep : String) : List String → String
  | [] => ""
  | [x] => x
  | x :: y :: rest => x ++ sep ++ joinSep sep (y :: rest)

/-- JSON array of strings, as `json.dumps` renders a list of citations. -/
def jsonStrArray (l : List String) : String :=
  "[" ++ joinSep ", " (l.map jsonStr) ++ "]"

/-- JSON object for one `node.model_dump()` dict (insertion order:
`node_name`, `docstring`, `code`). -/
def encodeNode (n : NodeResponse) : String :=
  "\x7b" ++ jsonStr "node_name" ++ ": " ++ jsonStr n.node_name ++ ", " ++
    jsonStr "docstring" ++ ": " ++ jsonStr n.docstring ++ ", " ++
    jsonStr "code" ++ ": " ++ jsonStr n.code ++ "\x7d"

/-- JSON rendering of a message payload: a string, or the list of node
dicts the debugging agent branch places in `"message"`. -/
def encodePayload : MsgPayload → String
  | MsgPayload.str s => jsonStr s
  | MsgPayload.nodes ns => "[" ++ joinSep ", " (ns.map encodeNode) ++ "]"

/-- `json.dumps({"citations": citations, "message": message})`: a JSON
object with exactly those two fields, in that order. -/
def encodeChunk (citations : List String) (message : MsgPayload) : String :=
  "\x7b" ++ jsonStr "citations" ++ ": " ++ jsonStrArray citations ++ ", " ++
    jsonStr "message" ++ ": " ++ encodePayload message ++ "\x7d"

/-- The string actually yielded for one stream item: the JSON object for
a chunk, the bare text for the error path. -/
def encodeItem : StreamItem → String
  | StreamItem.chunkItem cs m => encodeChunk cs m
  | StreamItem.rawItem s => s

/-- The string sequence a run yields to the caller. -/
def wireOutput (t : List Event) : List String :=
  (yieldItemsOf t).map encodeItem

/-- A chunk object's encoding opens with `\x7b`, never with the error
indicator's `A`, so the bare error string is not the encoding of any
chunk object. -/
theorem encodeChunk_ne_errorString (cs : List String) (m : MsgPayload)
    (r : String) : encodeChunk cs m ≠ errorIndicator ++ r := by
  intro h
  have h1 : (encodeChunk cs m).data.head? = some (Char.ofNat 123) := rfl
  rw [h] at h1
  have h2 : (errorIndicator ++ r).data.head? = some 'A' := rfl
  rw [h2] at h1
  exact absurd h1 (by decide)

/-- Every item `CodeChangesChatAgent.run` yields is a chunk object or the
error-indicator string. -/
theorem yield_shape_cc (fmt : List String → List String)
    (ci : CodeChangesInputs) :
    ∀ i ∈ yieldItemsOf (codeChangesRun fmt ci),
      (∃ cs m, i = StreamItem.chunkItem cs m) ∨
        ∃ r, i = StreamItem.rawItem (errorIndicator ++ r) := by
  intro i hi
  cases hcl : ci.classification with
  | AGENT_REQUIRED =>
    cases hbr : ci.blast_radius_result with
    | raised e =>
      simp only [codeChangesRun, hcl, hbr, yieldItemsOf] at hi
      simp only [List.mem_singleton] at hi
      exact Or.inr ⟨e, hi⟩
    | ok br =>
      simp only [codeChangesRun, hcl, hbr] at hi
      rw [yieldItemsOf_streamEvents] at hi
      rcases List.mem_append.mp hi with h1 | h2
      · rcases List.mem_map.mp h1 with ⟨c, _, rfl⟩
        exact Or.inl ⟨_, _, rfl⟩
      · cases hsr : ci.streamRaise with
        | none =>
          rw [hsr] at h2
          simp [streamTail, yieldItemsOf] at h2
        | some e =>
          rw [hsr] at h2
          simp only [streamTail, yieldItemsOf, List.mem_singleton] at h2
          exact Or.inr ⟨e, h2⟩
  | NO_AGENT =>
    simp only [codeChangesRun, hcl] at hi
    rw [yieldItemsOf_streamEvents] at hi
    rcases List.mem_append.mp hi with h1 | h2
    · rcases List.mem_map.mp h1 with ⟨c, _, rfl⟩
      exact Or.inl ⟨_, _, rfl⟩
    · cases hsr : ci.streamRaise with
      | none =>
        rw [hsr] at h2
        simp [streamTail, yieldItemsOf] at h2
      | some e =>
        rw [hsr] at h2
        simp only [streamTail, yieldItemsOf, List.mem_singleton] at h2
        exact Or.inr ⟨e, h2⟩

/-- Every item `DebuggingChatAgent.run` yields is a chunk object or the
error-indicator string. -/
theorem yield_shape_dbg (fmt : List String → List String)
    (di : DebuggingInputs) :
    ∀ i ∈ yieldItemsOf (debuggingRun fmt di),
      (∃ cs m, i = StreamItem.chunkItem cs m) ∨
        ∃ r, i = StreamItem.rawItem (errorIndicator ++ r) := by
  intro i hi
  cases hcl : di.classification with
  | AGENT_REQUIRED =>
    cases hdr : di.rag_result with
    | raised e =>
      simp only [debuggingRun, hcl, hdr, yieldItemsOf] at hi
      simp only [List.mem_singleton] at hi
      exact Or.inr ⟨e, hi⟩
    | ok rr =>
      simp only [debuggingRun, hcl, hdr, yieldItemsOf] at hi
      simp only [List.mem_singleton] at hi
      exact Or.inl ⟨_, _, hi⟩
  | NO_AGENT =>
    simp only [debuggingRun, hcl] at hi
    rw [yieldItemsOf_streamEvents] at hi
    rcases List.mem_append.mp hi with h1 | h2
    · rcases List.mem_map.mp h1 with ⟨c, _, rfl⟩
      exact Or.inl ⟨_, _, rfl⟩
    · cases hsr : di.streamRaise with
      | none =>
        rw [hsr] at h2
        simp [streamTail, yieldItemsOf] at h2
      | some e =>
        rw [hsr] at h2
        simp only [streamTail, yieldItemsOf, List.mem_singleton] at h2
        exact Or.inr ⟨e, h2⟩

/- ## Claim C10 -/

/-- C10: on the error path each orchestrator's single yielded item is the
bare string `"An error occurred: "` followed by the exception text, which
is not the JSON encoding of any `{citations, message}` chunk object;
every success-path yield is the JSON encoding of such a two-field chunk
object, so on any run the error string is the only wire item that does
not parse as a chunk object. -/
theorem error_chunk_bare_string (fmt : List String → List String)
    (ci ci2 : CodeChangesInputs) (di di2 : DebuggingInputs) (e e' : String)
    (hc : ci.classification = ClassificationResult.AGENT_REQUIRED)
    (he : ci.blast_radius_result = RunnerOutcome.raised e)
    (hd : di.classification = ClassificationResult.AGENT_REQUIRED)
    (he' : di.rag_result = RunnerOutcome.raised e') :
    wireOutput (codeChangesRun fmt ci) = [errorIndicator ++ e] ∧
    wireOutput (debuggingRun fmt di) = [errorIndicator ++ e'] ∧
    (∀ r cs m, errorIndicator ++ r ≠ encodeChunk cs m) ∧
    (∀ s ∈ wireOutput (codeChangesRun fmt ci2),
      (∃ cs m, s = encodeChunk cs m) ∨ ∃ r, s = errorIndicator ++ r) ∧
    (∀ s ∈ wireOutput (debuggingRun fmt di2),
      (∃ cs m, s = encodeChunk cs m) ∨ ∃ r, s = errorIndicator ++ r) := by
  refine ⟨?_, ?_, ?_, ?_, ?_⟩
  · simp [wireOutput, codeChangesRun, hc, he, yieldItemsOf, encodeItem]
  · simp [wireOutput, debuggingRun, hd, he', yieldItemsOf, encodeItem]
  · intro r cs m h
    exact encodeChunk_ne_errorString cs m r h.symm
  · intro s hs
    simp only [wireOutput] at hs
    rcases List.mem_map.mp hs with ⟨i, hi, rfl⟩
    rcases yield_shape_cc fmt ci2 i hi with ⟨cs, m, rfl⟩ | ⟨r, rfl⟩
    · exact Or.inl ⟨cs, m, rfl⟩
    · exact Or.inr ⟨r, rfl⟩
  · intro s hs
    simp only [wireOutput] at hs
    rcases List.mem_map.mp hs with ⟨i, hi, rfl⟩
    rcases yield_shape_dbg fmt di2 i hi with ⟨cs, m, rfl⟩ | ⟨r, rfl⟩
    · exact Or.inl ⟨cs, m, rfl⟩
    · exact Or.inr ⟨r, rfl⟩

/-- C10 (witness): a concrete failed code-changes run wires exactly the
bare error string. -/
theorem error_chunk_bare_string_witness :
    wireOutput (codeChangesRun (fun l => l)
      { classification := ClassificationResult.AGENT_REQUIRED,
        blast_radius_result := RunnerOutcome.raised "db down",
        streamChunks := [], streamRaise := none }) =
      [errorIndicator ++ "db down"] :=
  (error_chunk_bare_string (fun l => l)
    { classification := ClassificationResult.AGENT_REQUIRED,
      blast_radius_result := RunnerOutcome.raised "db down",
      streamChunks := [], streamRaise := none }
    { classification := ClassificationResult.NO_AGENT,
      blast_radius_result := RunnerOutcome.ok { pydantic := none, raw := "" },
      streamChunks := ["ok"], streamRaise := none }
    { classification := ClassificationResult.AGENT_REQUIRED,
      rag_result := RunnerOutcome.raised "io err",
      streamChunks := [], streamRaise := none }
    { classification := ClassificationResult.NO_AGENT,
      rag_result := RunnerOutcome.ok { pydantic := none, raw := "" },
      streamChunks := [], streamRaise := none }
    "db down" "io err" rfl rfl rfl rfl).1
